import Mathlib

/-!
Verification of the simple_resource_monitor program (src/main.py).

The Python program is shallowly embedded as follows.

The external pynvml library is modelled as an oracle: an InitEnv describes
what the library answers during construction of GPUInfo, and an Env
describes what it answers during one call to getStatus (one tick of the
main loop). A query that raises an exception in Python is modelled by the
oracle returning an Except.error carrying the exception message.

Python exceptions escaping a function are modelled with Except; mutations
of the object performed before the exception are kept, so getStatus
returns the updated state alongside the possibly-failing sample. Every
query actually issued to the library is recorded in a log, so that claims
of the form "the library is never queried again" are statable.

Python integer values from the library are modelled as Int, and the one
true division (vramPercent) as a rational, with an explicit check
modelling the ZeroDivisionError raised by Python when the total is zero.
-/

/-- One of the three metrics queried per device per tick. -/
inductive Metric where
  | util
  | vram
  | temp
deriving Repr, DecidableEq

/-- Exceptions that can escape getStatus in main.py. -/
inductive PyErr where
  | nvmlError (msg : String)
  | zeroDivision
  | indexError
deriving Repr, DecidableEq

/-- Result of pynvml.nvmlDeviceGetMemoryInfo: fields used and total. -/
structure MemInfo where
  used : Int
  total : Int
deriving Repr, DecidableEq

/-- Oracle for the library calls made inside getStatus on one tick:
for each device index, the outcome of nvmlDeviceGetUtilizationRates
(field gpu), nvmlDeviceGetMemoryInfo, and nvmlDeviceGetTemperature.
An error value carries str(e) of the raised exception. -/
structure Env where
  utilRates : Nat → Except String Int
  memInfo : Nat → Except String MemInfo
  temperature : Nat → Except String Int

/-- Outcome of pynvml.nvmlDeviceGetName followed by the decode attempt in
main.py lines 43-52: the call returns bytes (decoded with errors ignore,
which never raises), returns a str (whose missing decode method raises
AttributeError, caught and ignored), or raises UnicodeDecodeError. -/
inductive NameRes where
  | bytes (decoded : String)
  | str (s : String)
  | unicodeDecodeError
deriving Repr, DecidableEq

/-- Oracle for the library calls made inside GPUInfo.__init__:
whether nvmlInit succeeds (an NVMLError is caught, main.py lines 27-32),
the value of nvmlDeviceGetCount, and the name outcome per device. -/
structure InitEnv where
  initOk : Bool
  deviceCount : Nat
  getName : Nat → NameRes

/-- One enumerated device, main.py lines 56-61. -/
structure Device where
  index : Nat
  name : String
deriving Repr, DecidableEq

/-- The mutable state of a GPUInfo object, main.py lines 15-24. -/
structure GPUInfoState where
  cuda : Bool
  pynvmlLoaded : Bool
  cudaDevicesFound : Nat
  switchGPU : Bool
  switchVRAM : Bool
  switchTemperature : Bool
  gpus : List Device
  gpusUtilization : List Bool
  gpusVRAM : List Bool
  gpusTemperature : List Bool
deriving Repr, DecidableEq

/-- One per-GPU entry of the record built by getStatus, main.py 131-139. -/
structure GpuSample where
  gpu_utilization : Int
  gpu_temperature : Int
  vram_total : Int
  vram_used : Int
  vram_used_percent : ℚ
deriving Repr, DecidableEq

/-- The record returned by getStatus, main.py lines 141-144. -/
structure Status where
  device_type : String
  gpus : List GpuSample
deriving Repr, DecidableEq

/-- The name computed for one device during enumeration,
main.py lines 41-52. -/
def enumName (r : NameRes) : String :=
  match r with
  | .bytes decoded => decoded
  | .str s => s
  | .unicodeDecodeError => "Unknown GPU (decoding error)"

/-- GPUInfo.__init__, main.py lines 26-71. On nvmlInit failure
pynvmlLoaded stays false and the class-level defaults remain; otherwise
all devices are enumerated and the three per-device flag lists are
filled with true. -/
def initGPUInfo (ie : InitEnv) : GPUInfoState :=
  if ie.initOk && decide (0 < ie.deviceCount) then
    { cuda := true
      pynvmlLoaded := true
      cudaDevicesFound := ie.deviceCount
      switchGPU := true
      switchVRAM := true
      switchTemperature := true
      gpus := (List.range ie.deviceCount).map
        (fun i => { index := i, name := enumName (ie.getName i) })
      gpusUtilization := List.replicate ie.deviceCount true
      gpusVRAM := List.replicate ie.deviceCount true
      gpusTemperature := List.replicate ie.deviceCount true }
  else
    { cuda := false
      pynvmlLoaded := ie.initOk
      cudaDevicesFound := 0
      switchGPU := true
      switchVRAM := true
      switchTemperature := true
      gpus := []
      gpusUtilization := []
      gpusVRAM := []
      gpusTemperature := [] }

/-- The GPU-utilization block of getStatus, main.py lines 93-108.
The if condition short-circuits: the per-device list is only indexed when
switchGPU is true (an out-of-range index raises, uncaught). On a query
failure the exception is caught, the value stays 0 and switchGPU is set
false. Returns the value, the updated state and the queries issued. -/
def utilPart (env : Env) (s : GPUInfoState) (i : Nat) :
    Except PyErr (Int × GPUInfoState × List (Metric × Nat)) :=
  if s.switchGPU then
    match s.gpusUtilization[i]? with
    | none => .error .indexError
    | some flag =>
      if flag then
        match env.utilRates i with
        | .ok u => .ok (u, s, [(.util, i)])
        | .error _ => .ok (0, { s with switchGPU := false }, [(.util, i)])
      else .ok (0, s, [])
  else .ok (0, s, [])

/-- The VRAM block of getStatus, main.py lines 110-116. The memory query
has no try guard: a failure propagates out of getStatus. The division
vramUsed / vramTotal raises ZeroDivisionError when the total is 0.
Returns (vramUsed, vramTotal, vramPercent) and the queries issued; the
state is never modified by this block. -/
def vramPart (env : Env) (s : GPUInfoState) (i : Nat) :
    Except PyErr ((Int × Int × ℚ) × List (Metric × Nat)) :=
  if s.switchVRAM then
    match s.gpusVRAM[i]? with
    | none => .error .indexError
    | some flag =>
      if flag then
        match env.memInfo i with
        | .ok m =>
          if m.total = 0 then .error .zeroDivision
          else .ok ((m.used, m.total, (m.used : ℚ) / (m.total : ℚ) * 100),
            [(.vram, i)])
        | .error msg => .error (.nvmlError msg)
      else .ok ((0, 0, 0), [])
  else .ok ((0, 0, 0), [])

/-- The temperature block of getStatus, main.py lines 118-129. On a query
failure the exception is caught, the value stays 0 and switchTemperature
is set false. -/
def tempPart (env : Env) (s : GPUInfoState) (i : Nat) :
    Except PyErr (Int × GPUInfoState × List (Metric × Nat)) :=
  if s.switchTemperature then
    match s.gpusTemperature[i]? with
    | none => .error .indexError
    | some flag =>
      if flag then
        match env.temperature i with
        | .ok t => .ok (t, s, [(.temp, i)])
        | .error _ => .ok (0, { s with switchTemperature := false }, [(.temp, i)])
      else .ok (0, s, [])
  else .ok (0, s, [])

/-- One iteration of the device loop of getStatus, main.py lines 84-139:
utilization, then VRAM, then temperature, then the append of the entry.
An uncaught exception aborts the iteration but keeps the state mutations
performed so far. -/
def stepDevice (env : Env) (s : GPUInfoState) (i : Nat) :
    Except PyErr GpuSample × GPUInfoState × List (Metric × Nat) :=
  match utilPart env s i with
  | .error e => (.error e, s, [])
  | .ok (u, s1, q1) =>
    match vramPart env s1 i with
    | .error e => (.error e, s1, q1)
    | .ok ((vu, vt, vp), q2) =>
      match tempPart env s1 i with
      | .error e => (.error e, s1, q1 ++ q2)
      | .ok (t, s2, q3) =>
        (.ok { gpu_utilization := u
               gpu_temperature := t
               vram_total := vt
               vram_used := vu
               vram_used_percent := vp },
         s2, q1 ++ q2 ++ q3)

/-- The device loop of getStatus over a list of device indices, threading
the state and accumulating the per-GPU entries in loop order and the
query log. An uncaught exception aborts the loop. -/
def deviceLoop (env : Env) (s : GPUInfoState) :
    List Nat → Except PyErr (List GpuSample) × GPUInfoState × List (Metric × Nat)
  | [] => (.ok [], s, [])
  | i :: rest =>
    match stepDevice env s i with
    | (.error e, s1, q) => (.error e, s1, q)
    | (.ok g, s1, q) =>
      match deviceLoop env s1 rest with
      | (.error e, s2, q2) => (.error e, s2, q ++ q2)
      | (.ok gs, s2, q2) => (.ok (g :: gs), s2, q ++ q2)

/-- GPUInfo.getStatus, main.py lines 73-144. When the library loaded and
devices were found, runs the device loop over range(cudaDevicesFound);
otherwise returns the empty record at once. device_type is the local
gpuType, initialized to the empty string and never assigned again. -/
def getStatus (env : Env) (s : GPUInfoState) :
    Except PyErr Status × GPUInfoState × List (Metric × Nat) :=
  if s.pynvmlLoaded && s.cuda then
    match deviceLoop env s (List.range s.cudaDevicesFound) with
    | (.error e, s1, q) => (.error e, s1, q)
    | (.ok gs, s1, q) => (.ok { device_type := "", gpus := gs }, s1, q)
  else (.ok { device_type := "", gpus := [] }, s, [])

/-- The sampling loop of the main block, main.py lines 163-167, run for
one tick per element of the given list of oracles (the killer flag stops
the loop after that many complete ticks). Returns the per-tick records
with their query logs in tick order, the final state, and the uncaught
exception if one aborted the loop. -/
def runTicks : List Env → GPUInfoState →
    List (Status × List (Metric × Nat)) × GPUInfoState × Option PyErr
  | [], s => ([], s, none)
  | e :: es, s =>
    match getStatus e s with
    | (.error err, s1, _) => ([], s1, some err)
    | (.ok st, s1, q) =>
      match runTicks es s1 with
      | (outs, s2, errOpt) => ((st, q) :: outs, s2, errOpt)

/-- A JSON value, for the serialization performed by json.dump. -/
inductive Json where
  | str (s : String)
  | num (q : ℚ)
  | arr (xs : List Json)
  | obj (fields : List (String × Json))

/-- Serialization of one per-GPU entry, preserving the key order of the
dict built at main.py lines 131-139. -/
def gpuSampleToJson (g : GpuSample) : Json :=
  .obj [("gpu_utilization", .num g.gpu_utilization),
        ("gpu_temperature", .num g.gpu_temperature),
        ("vram_total", .num g.vram_total),
        ("vram_used", .num g.vram_used),
        ("vram_used_percent", .num g.vram_used_percent)]

/-- Serialization of one per-tick record, main.py lines 141-144. -/
def statusToJson (st : Status) : Json :=
  .obj [("device_type", .str st.device_type),
        ("gpus", .arr (st.gpus.map gpuSampleToJson))]

/-- The single json.dump call of the main block, main.py line 170:
the value serialized to status.json and the indent argument. -/
structure DumpCall where
  value : Json
  indent : Nat

/-- The main block, main.py lines 158-170: construct GPUInfo, run the
loop until the killer flag stops it, then on clean exit write the full
results list to status.json with indent 4. If a tick raised, the process
dies and no file is written. Returns the accumulated in-memory history
and the dump call, if any. -/
def mainRun (ie : InitEnv) (tickEnvs : List Env) :
    List Status × Option DumpCall :=
  let r := runTicks tickEnvs (initGPUInfo ie)
  let results := r.1.map Prod.fst
  match r.2.2 with
  | none => (results, some { value := .arr (results.map statusToJson), indent := 4 })
  | some _ => (results, none)

/-- Relation between a GPUInfo state and a later state of the same
process: every field is unchanged except the two global switches, which
may only move from true to false. -/
def StateMono (s s1 : GPUInfoState) : Prop :=
  s1.cuda = s.cuda ∧ s1.pynvmlLoaded = s.pynvmlLoaded ∧
  s1.cudaDevicesFound = s.cudaDevicesFound ∧
  (s1.switchGPU = true → s.switchGPU = true) ∧
  s1.switchVRAM = s.switchVRAM ∧
  (s1.switchTemperature = true → s.switchTemperature = true) ∧
  s1.gpus = s.gpus ∧ s1.gpusUtilization = s.gpusUtilization ∧
  s1.gpusVRAM = s.gpusVRAM ∧ s1.gpusTemperature = s.gpusTemperature

/-- The per-GPU entry produced for device i on a tick where every switch
and per-device flag is on and all three queries succeed. -/
def sampleOf (env : Env) (i : Nat) : GpuSample :=
  { gpu_utilization := (env.utilRates i).toOption.getD 0
    gpu_temperature := (env.temperature i).toOption.getD 0
    vram_total := ((env.memInfo i).toOption.getD ⟨0, 0⟩).total
    vram_used := ((env.memInfo i).toOption.getD ⟨0, 0⟩).used
    vram_used_percent :=
      ((((env.memInfo i).toOption.getD ⟨0, 0⟩).used : ℚ) /
        (((env.memInfo i).toOption.getD ⟨0, 0⟩).total : ℚ)) * 100 }

/-- An oracle that answers every query for the first n devices without an
exception, with a nonzero VRAM total. -/
def FullyOk (env : Env) (n : Nat) : Prop :=
  ∀ i < n, (∃ u, env.utilRates i = .ok u) ∧
    (∃ m, env.memInfo i = .ok m ∧ m.total ≠ 0) ∧
    ∃ t, env.temperature i = .ok t

/-! ### Concrete oracles used by the witnesses -/

def wName : Nat → NameRes := fun _ => .str "GeForce TEST"

def wIE1 : InitEnv := { initOk := true, deviceCount := 1, getName := wName }

def wIE2 : InitEnv := { initOk := true, deviceCount := 2, getName := wName }

def wIEbad : InitEnv := { initOk := false, deviceCount := 2, getName := wName }

def wIEdec : InitEnv :=
  { initOk := true, deviceCount := 2,
    getName := fun i => if i = 0 then .unicodeDecodeError else .str "GeForce TEST" }

def wMem : MemInfo := { used := 50, total := 100 }

def wEnvOk : Env :=
  { utilRates := fun i => .ok (10 + (i : Int))
    memInfo := fun _ => .ok wMem
    temperature := fun _ => .ok 40 }

def wEnvOkB : Env :=
  { utilRates := fun i => .ok (20 + (i : Int))
    memInfo := fun _ => .ok wMem
    temperature := fun _ => .ok 40 }

def wEnvFail0 : Env :=
  { utilRates := fun i => if i = 0 then .error "Unknown Error" else .ok 77
    memInfo := fun _ => .ok wMem
    temperature := fun _ => .ok 40 }

def wEnvMemErr : Env :=
  { utilRates := fun _ => .ok 5
    memInfo := fun _ => .error "GPU is lost"
    temperature := fun _ => .ok 40 }

def wEnvZero : Env :=
  { utilRates := fun _ => .ok 5
    memInfo := fun _ => .ok { used := 0, total := 0 }
    temperature := fun _ => .ok 40 }

def wOT1 : Status × List (Metric × Nat) :=
  ({ device_type := "",
     gpus := [{ gpu_utilization := 0, gpu_temperature := 40, vram_total := 100,
                vram_used := 50, vram_used_percent := (50 : ℚ) / 100 * 100 }] },
   [(.util, 0), (.vram, 0), (.temp, 0)])

def wOT2 : Status × List (Metric × Nat) :=
  ({ device_type := "",
     gpus := [{ gpu_utilization := 0, gpu_temperature := 40, vram_total := 100,
                vram_used := 50, vram_used_percent := (50 : ℚ) / 100 * 100 }] },
   [(.vram, 0), (.temp, 0)])

/-! ### Helper lemmas about one device step -/

theorem utilPart_state (env : Env) (s : GPUInfoState) (i : Nat) :
    ∀ u s1 q, utilPart env s i = .ok (u, s1, q) →
      s1 = s ∨ s1 = { s with switchGPU := false } := by
  intro u s1 q h
  unfold utilPart at h
  split at h
  · split at h
    · exact absurd h (by simp)
    · split at h
      · split at h
        · exact Or.inl (by cases h; rfl)
        · exact Or.inr (by cases h; rfl)
      · exact Or.inl (by cases h; rfl)
  · exact Or.inl (by cases h; rfl)

theorem tempPart_state (env : Env) (s : GPUInfoState) (i : Nat) :
    ∀ t s1 q, tempPart env s i = .ok (t, s1, q) →
      s1 = s ∨ s1 = { s with switchTemperature := false } := by
  intro t s1 q h
  unfold tempPart at h
  split at h
  · split at h
    · exact absurd h (by simp)
    · split at h
      · split at h
        · exact Or.inl (by cases h; rfl)
        · exact Or.inr (by cases h; rfl)
      · exact Or.inl (by cases h; rfl)
  · exact Or.inl (by cases h; rfl)

theorem stateMono_refl (s : GPUInfoState) : StateMono s s :=
  ⟨rfl, rfl, rfl, id, rfl, id, rfl, rfl, rfl, rfl⟩

theorem stateMono_trans {s s1 s2 : GPUInfoState}
    (h1 : StateMono s s1) (h2 : StateMono s1 s2) : StateMono s s2 := by
  obtain ⟨a1, b1, c1, d1, e1, f1, g1, h1a, h1b, h1c⟩ := h1
  obtain ⟨a2, b2, c2, d2, e2, f2, g2, h2a, h2b, h2c⟩ := h2
  exact ⟨a2.trans a1, b2.trans b1, c2.trans c1, fun h => d1 (d2 h),
    e2.trans e1, fun h => f1 (f2 h), g2.trans g1, h2a.trans h1a,
    h2b.trans h1b, h2c.trans h1c⟩

theorem stateMono_set_gpu (s : GPUInfoState) :
    StateMono s { s with switchGPU := false } := by
  simp [StateMono]

theorem stateMono_set_temp (s : GPUInfoState) :
    StateMono s { s with switchTemperature := false } := by
  simp [StateMono]

theorem utilPart_mono (env : Env) (s : GPUInfoState) (i : Nat) :
    ∀ u s1 q, utilPart env s i = .ok (u, s1, q) → StateMono s s1 := by
  intro u s1 q h
  rcases utilPart_state env s i u s1 q h with h1 | h1
  · rw [h1]; exact stateMono_refl s
  · rw [h1]; exact stateMono_set_gpu s

theorem tempPart_mono (env : Env) (s : GPUInfoState) (i : Nat) :
    ∀ t s1 q, tempPart env s i = .ok (t, s1, q) → StateMono s s1 := by
  intro t s1 q h
  rcases tempPart_state env s i t s1 q h with h1 | h1
  · rw [h1]; exact stateMono_refl s
  · rw [h1]; exact stateMono_set_temp s

theorem stepDevice_mono (env : Env) (s : GPUInfoState) (i : Nat) :
    StateMono s (stepDevice env s i).2.1 := by
  unfold stepDevice
  rcases hu : utilPart env s i with e | ⟨u, s1, q1⟩
  · exact stateMono_refl s
  · have hm1 : StateMono s s1 := utilPart_mono env s i u s1 q1 hu
    dsimp only
    rcases hv : vramPart env s1 i with e | ⟨⟨vu, vt, vp⟩, q2⟩
    · exact hm1
    · dsimp only
      rcases ht : tempPart env s1 i with e | ⟨t, s2, q3⟩
      · exact hm1
      · exact stateMono_trans hm1 (tempPart_mono env s1 i t s2 q3 ht)

theorem deviceLoop_mono (env : Env) :
    ∀ (l : List Nat) (s : GPUInfoState), StateMono s (deviceLoop env s l).2.1 := by
  intro l
  induction l with
  | nil => intro s; exact stateMono_refl s
  | cons i rest ih =>
    intro s
    unfold deviceLoop
    rcases hs : stepDevice env s i with ⟨r, s1, q⟩
    have hm1 : StateMono s s1 := by
      have := stepDevice_mono env s i
      rw [hs] at this
      exact this
    cases r with
    | error e => exact hm1
    | ok g =>
      dsimp only
      rcases hl : deviceLoop env s1 rest with ⟨r2, s2, q2⟩
      have hm2 : StateMono s1 s2 := by
        have := ih s1
        rw [hl] at this
        exact this
      cases r2 with
      | error e => exact stateMono_trans hm1 hm2
      | ok gs => exact stateMono_trans hm1 hm2

theorem getStatus_mono (env : Env) (s : GPUInfoState) :
    StateMono s (getStatus env s).2.1 := by
  unfold getStatus
  split
  · rcases hl : deviceLoop env s (List.range s.cudaDevicesFound) with ⟨r, s1, q⟩
    have hm : StateMono s s1 := by
      have := deviceLoop_mono env (List.range s.cudaDevicesFound) s
      rw [hl] at this
      exact this
    cases r with
    | error e => exact hm
    | ok gs => exact hm
  · exact stateMono_refl s

/-! ### Query-log and disabled-switch lemmas for the three metric blocks -/

theorem utilPart_off (env : Env) (s : GPUInfoState) (i : Nat)
    (h : s.switchGPU = false) : utilPart env s i = .ok (0, s, []) := by
  unfold utilPart
  rw [h]
  rfl

theorem tempPart_off (env : Env) (s : GPUInfoState) (i : Nat)
    (h : s.switchTemperature = false) : tempPart env s i = .ok (0, s, []) := by
  unfold tempPart
  rw [h]
  rfl

theorem utilPart_log (env : Env) (s : GPUInfoState) (i : Nat) :
    ∀ u s1 q, utilPart env s i = .ok (u, s1, q) →
      ∀ m d, (m, d) ∈ q → m = Metric.util ∧ d = i := by
  intro u s1 q h m d hm
  unfold utilPart at h
  split at h
  · split at h
    · exact absurd h (by simp)
    · split at h
      · split at h
        · cases h; simp at hm; simp [hm]
        · cases h; simp at hm; simp [hm]
      · cases h; simp at hm
  · cases h; simp at hm

theorem tempPart_log (env : Env) (s : GPUInfoState) (i : Nat) :
    ∀ t s1 q, tempPart env s i = .ok (t, s1, q) →
      ∀ m d, (m, d) ∈ q → m = Metric.temp ∧ d = i := by
  intro t s1 q h m d hm
  unfold tempPart at h
  split at h
  · split at h
    · exact absurd h (by simp)
    · split at h
      · split at h
        · cases h; simp at hm; simp [hm]
        · cases h; simp at hm; simp [hm]
      · cases h; simp at hm
  · cases h; simp at hm

theorem vramPart_log (env : Env) (s : GPUInfoState) (i : Nat) :
    ∀ r q, vramPart env s i = .ok (r, q) →
      ∀ m d, (m, d) ∈ q → m = Metric.vram ∧ d = i := by
  intro r q h m d hm
  unfold vramPart at h
  split at h
  · split at h
    · exact absurd h (by simp)
    · split at h
      · split at h
        · split at h
          · exact absurd h (by simp)
          · cases h; simp at hm; simp [hm]
        · exact absurd h (by simp)
      · cases h; simp at hm
  · cases h; simp at hm

theorem utilPart_fail (env : Env) (s : GPUInfoState) (i : Nat) (msg : String)
    (he : env.utilRates i = .error msg) :
    ∀ u s1 q, utilPart env s i = .ok (u, s1, q) → (Metric.util, i) ∈ q →
      s1.switchGPU = false := by
  intro u s1 q h hq
  unfold utilPart at h
  split at h
  · split at h
    · exact absurd h (by simp)
    · split at h
      · split at h
        case _ v heq => rw [he] at heq; exact absurd heq (by simp)
        case _ m2 heq => cases h; rfl
      · cases h; simp at hq
  · cases h; simp at hq

theorem tempPart_fail (env : Env) (s : GPUInfoState) (i : Nat) (msg : String)
    (he : env.temperature i = .error msg) :
    ∀ t s1 q, tempPart env s i = .ok (t, s1, q) → (Metric.temp, i) ∈ q →
      s1.switchTemperature = false := by
  intro t s1 q h hq
  unfold tempPart at h
  split at h
  · split at h
    · exact absurd h (by simp)
    · split at h
      · split at h
        case _ v heq => rw [he] at heq; exact absurd heq (by simp)
        case _ m2 heq => cases h; rfl
      · cases h; simp at hq
  · cases h; simp at hq

theorem vramPart_congr (env : Env) (s s1 : GPUInfoState) (i : Nat)
    (hv : s1.switchVRAM = s.switchVRAM) (hl : s1.gpusVRAM = s.gpusVRAM) :
    vramPart env s1 i = vramPart env s i := by
  unfold vramPart
  rw [hv, hl]

/-! ### Disabled-switch and failure lemmas for one device step -/

theorem stepDevice_off_util (env : Env) (s : GPUInfoState) (i : Nat)
    (h : s.switchGPU = false) :
    (∀ g, (stepDevice env s i).1 = .ok g → g.gpu_utilization = 0) ∧
    (∀ d, (Metric.util, d) ∉ (stepDevice env s i).2.2) ∧
    (stepDevice env s i).2.1.switchGPU = false := by
  unfold stepDevice
  rw [utilPart_off env s i h]
  dsimp only
  rcases hv : vramPart env s i with e | ⟨⟨vu, vt, vp⟩, q2⟩
  · exact ⟨fun g hg => by simp at hg, fun d hd => by simp at hd, h⟩
  · dsimp only
    rcases ht : tempPart env s i with e | ⟨t, s2, q3⟩
    · refine ⟨fun g hg => by simp at hg, fun d hd => ?_, h⟩
      simp only [List.nil_append] at hd
      exact absurd (vramPart_log env s i _ _ hv _ _ hd).1 (by simp)
    · refine ⟨fun g hg => ?_, fun d hd => ?_, ?_⟩
      · dsimp only at hg
        cases hg
        rfl
      · dsimp only at hd
        simp only [List.nil_append, List.mem_append] at hd
        rcases hd with hd | hd
        · exact absurd (vramPart_log env s i _ _ hv _ _ hd).1 (by simp)
        · exact absurd (tempPart_log env s i _ _ _ ht _ _ hd).1 (by simp)
      · dsimp only
        rcases tempPart_state env s i t s2 q3 ht with h2 | h2 <;> rw [h2] <;> exact h

theorem stepDevice_off_temp (env : Env) (s : GPUInfoState) (i : Nat)
    (h : s.switchTemperature = false) :
    (∀ g, (stepDevice env s i).1 = .ok g → g.gpu_temperature = 0) ∧
    (∀ d, (Metric.temp, d) ∉ (stepDevice env s i).2.2) ∧
    (stepDevice env s i).2.1.switchTemperature = false := by
  unfold stepDevice
  rcases hu : utilPart env s i with e | ⟨u, s1, q1⟩
  · exact ⟨fun g hg => by simp at hg, fun d hd => by simp at hd, h⟩
  · dsimp only
    have h1 : s1.switchTemperature = false := by
      rcases utilPart_state env s i u s1 q1 hu with h2 | h2 <;> rw [h2] <;> exact h
    rcases hv : vramPart env s1 i with e | ⟨⟨vu, vt, vp⟩, q2⟩
    · refine ⟨fun g hg => by simp at hg, fun d hd => ?_, h1⟩
      exact absurd (utilPart_log env s i _ _ _ hu _ _ hd).1 (by simp)
    · dsimp only
      rw [tempPart_off env s1 i h1]
      dsimp only
      refine ⟨fun g hg => ?_, fun d hd => ?_, h1⟩
      · cases hg
        rfl
      · simp only [List.append_nil, List.mem_append] at hd
        rcases hd with hd | hd
        · exact absurd (utilPart_log env s i _ _ _ hu _ _ hd).1 (by simp)
        · exact absurd (vramPart_log env s1 i _ _ hv _ _ hd).1 (by simp)

theorem stepDevice_fail_util (env : Env) (s : GPUInfoState) (i d : Nat)
    (msg : String) (he : env.utilRates d = .error msg)
    (hd : (Metric.util, d) ∈ (stepDevice env s i).2.2) :
    (stepDevice env s i).2.1.switchGPU = false := by
  unfold stepDevice at hd ⊢
  rcases hu : utilPart env s i with e | ⟨u, s1, q1⟩
  · rw [hu] at hd; simp at hd
  · rw [hu] at hd
    dsimp only at hd ⊢
    have key : (Metric.util, d) ∈ q1 → s1.switchGPU = false := by
      intro hq
      have hdi : d = i := (utilPart_log env s i u s1 q1 hu _ _ hq).2
      rw [hdi] at he hq
      exact utilPart_fail env s i msg he u s1 q1 hu hq
    rcases hv : vramPart env s1 i with e | ⟨⟨vu, vt, vp⟩, q2⟩
    · rw [hv] at hd
      dsimp only at hd
      exact key hd
    · rw [hv] at hd
      dsimp only at hd ⊢
      rcases ht : tempPart env s1 i with e | ⟨t, s2, q3⟩
      · rw [ht] at hd
        dsimp only at hd
        simp only [List.mem_append] at hd
        rcases hd with hq | hq
        · exact key hq
        · exact absurd (vramPart_log env s1 i _ _ hv _ _ hq).1 (by simp)
      · rw [ht] at hd
        dsimp only at hd ⊢
        simp only [List.mem_append] at hd
        have h1 : s1.switchGPU = false := by
          rcases hd with (hq | hq) | hq
          · exact key hq
          · exact absurd (vramPart_log env s1 i _ _ hv _ _ hq).1 (by simp)
          · exact absurd (tempPart_log env s1 i _ _ _ ht _ _ hq).1 (by simp)
        rcases tempPart_state env s1 i t s2 q3 ht with h2 | h2 <;> rw [h2] <;> exact h1

theorem stepDevice_fail_temp (env : Env) (s : GPUInfoState) (i d : Nat)
    (msg : String) (he : env.temperature d = .error msg)
    (hd : (Metric.temp, d) ∈ (stepDevice env s i).2.2) :
    (stepDevice env s i).2.1.switchTemperature = false := by
  unfold stepDevice at hd ⊢
  rcases hu : utilPart env s i with e | ⟨u, s1, q1⟩
  · rw [hu] at hd; simp at hd
  · rw [hu] at hd
    dsimp only at hd ⊢
    rcases hv : vramPart env s1 i with e | ⟨⟨vu, vt, vp⟩, q2⟩
    · rw [hv] at hd
      dsimp only at hd
      exact absurd (utilPart_log env s i _ _ _ hu _ _ hd).1 (by simp)
    · rw [hv] at hd
      dsimp only at hd ⊢
      rcases ht : tempPart env s1 i with e | ⟨t, s2, q3⟩
      · rw [ht] at hd
        dsimp only at hd
        simp only [List.mem_append] at hd
        rcases hd with hq | hq
        · exact absurd (utilPart_log env s i _ _ _ hu _ _ hq).1 (by simp)
        · exact absurd (vramPart_log env s1 i _ _ hv _ _ hq).1 (by simp)
      · rw [ht] at hd
        dsimp only at hd ⊢
        simp only [List.mem_append] at hd
        rcases hd with (hq | hq) | hq
        · exact absurd (utilPart_log env s i _ _ _ hu _ _ hq).1 (by simp)
        · exact absurd (vramPart_log env s1 i _ _ hv _ _ hq).1 (by simp)
        · have hdi : d = i := (tempPart_log env s1 i _ _ _ ht _ _ hq).2
          rw [hdi] at he hq
          exact tempPart_fail env s1 i msg he t s2 q3 ht hq

theorem mono_gpu_false {s s1 : GPUInfoState} (h : StateMono s s1)
    (hf : s.switchGPU = false) : s1.switchGPU = false := by
  obtain ⟨_, _, _, d1, _⟩ := h
  cases hb : s1.switchGPU
  · rfl
  · rw [d1 hb] at hf; exact hf

theorem mono_temp_false {s s1 : GPUInfoState} (h : StateMono s s1)
    (hf : s.switchTemperature = false) : s1.switchTemperature = false := by
  obtain ⟨_, _, _, _, _, f1, _⟩ := h
  cases hb : s1.switchTemperature
  · rfl
  · rw [f1 hb] at hf; exact hf

/-! ### Disabled-switch and failure lemmas for the device loop -/

theorem deviceLoop_off_util (env : Env) :
    ∀ (l : List Nat) (s : GPUInfoState), s.switchGPU = false →
      (∀ gs, (deviceLoop env s l).1 = .ok gs → ∀ g ∈ gs, g.gpu_utilization = 0) ∧
      (∀ d, (Metric.util, d) ∉ (deviceLoop env s l).2.2) ∧
      (deviceLoop env s l).2.1.switchGPU = false := by
  intro l
  induction l with
  | nil =>
    intro s h
    exact ⟨fun gs hgs => by cases hgs; exact fun g hg => absurd hg (List.not_mem_nil g),
      fun d hd => by simp [deviceLoop] at hd, h⟩
  | cons i rest ih =>
    intro s h
    unfold deviceLoop
    obtain ⟨hval, hlog, hst⟩ := stepDevice_off_util env s i h
    rcases hs : stepDevice env s i with ⟨r, s1, q⟩
    rw [hs] at hval hlog hst
    dsimp only at hval hlog hst
    cases r with
    | error e =>
      exact ⟨fun gs hgs => by simp at hgs, hlog, hst⟩
    | ok g =>
      dsimp only
      obtain ⟨ival, ilog, ist⟩ := ih s1 hst
      rcases hl : deviceLoop env s1 rest with ⟨r2, s2, q2⟩
      rw [hl] at ival ilog ist
      dsimp only at ival ilog ist
      cases r2 with
      | error e =>
        refine ⟨fun gs hgs => by simp at hgs, fun d hd => ?_, ist⟩
        simp only [List.mem_append] at hd
        rcases hd with hd | hd
        · exact hlog d hd
        · exact ilog d hd
      | ok gs =>
        refine ⟨fun gs2 hgs2 => ?_, fun d hd => ?_, ist⟩
        · cases hgs2
          intro g2 hg2
          rcases List.mem_cons.1 hg2 with h2 | h2
          · rw [h2]; exact hval g rfl
          · exact ival gs rfl g2 h2
        · simp only [List.mem_append] at hd
          rcases hd with hd | hd
          · exact hlog d hd
          · exact ilog d hd

theorem deviceLoop_off_temp (env : Env) :
    ∀ (l : List Nat) (s : GPUInfoState), s.switchTemperature = false →
      (∀ gs, (deviceLoop env s l).1 = .ok gs → ∀ g ∈ gs, g.gpu_temperature = 0) ∧
      (∀ d, (Metric.temp, d) ∉ (deviceLoop env s l).2.2) ∧
      (deviceLoop env s l).2.1.switchTemperature = false := by
  intro l
  induction l with
  | nil =>
    intro s h
    exact ⟨fun gs hgs => by cases hgs; exact fun g hg => absurd hg (List.not_mem_nil g),
      fun d hd => by simp [deviceLoop] at hd, h⟩
  | cons i rest ih =>
    intro s h
    unfold deviceLoop
    obtain ⟨hval, hlog, hst⟩ := stepDevice_off_temp env s i h
    rcases hs : stepDevice env s i with ⟨r, s1, q⟩
    rw [hs] at hval hlog hst
    dsimp only at hval hlog hst
    cases r with
    | error e =>
      exact ⟨fun gs hgs => by simp at hgs, hlog, hst⟩
    | ok g =>
      dsimp only
      obtain ⟨ival, ilog, ist⟩ := ih s1 hst
      rcases hl : deviceLoop env s1 rest with ⟨r2, s2, q2⟩
      rw [hl] at ival ilog ist
      dsimp only at ival ilog ist
      cases r2 with
      | error e =>
        refine ⟨fun gs hgs => by simp at hgs, fun d hd => ?_, ist⟩
        simp only [List.mem_append] at hd
        rcases hd with hd | hd
        · exact hlog d hd
        · exact ilog d hd
      | ok gs =>
        refine ⟨fun gs2 hgs2 => ?_, fun d hd => ?_, ist⟩
        · cases hgs2
          intro g2 hg2
          rcases List.mem_cons.1 hg2 with h2 | h2
          · rw [h2]; exact hval g rfl
          · exact ival gs rfl g2 h2
        · simp only [List.mem_append] at hd
          rcases hd with hd | hd
          · exact hlog d hd
          · exact ilog d hd

theorem deviceLoop_fail_util (env : Env) :
    ∀ (l : List Nat) (s : GPUInfoState) (d : Nat) (msg : String),
      env.utilRates d = .error msg →
      (Metric.util, d) ∈ (deviceLoop env s l).2.2 →
      (deviceLoop env s l).2.1.switchGPU = false := by
  intro l
  induction l with
  | nil => intro s d msg he hd; simp [deviceLoop] at hd
  | cons i rest ih =>
    intro s d msg he hd
    unfold deviceLoop at hd ⊢
    rcases hs : stepDevice env s i with ⟨r, s1, q⟩
    have hfail : (Metric.util, d) ∈ q → s1.switchGPU = false := by
      intro hq
      have := stepDevice_fail_util env s i d msg he (by rw [hs]; exact hq)
      rw [hs] at this
      exact this
    rw [hs] at hd
    cases r with
    | error e =>
      dsimp only at hd ⊢
      exact hfail hd
    | ok g =>
      dsimp only at hd ⊢
      rcases hl : deviceLoop env s1 rest with ⟨r2, s2, q2⟩
      have hmono : StateMono s1 s2 := by
        have := deviceLoop_mono env rest s1
        rw [hl] at this
        exact this
      rw [hl] at hd
      cases r2 with
      | error e =>
        dsimp only at hd ⊢
        simp only [List.mem_append] at hd
        rcases hd with hq | hq
        · exact mono_gpu_false hmono (hfail hq)
        · have := ih s1 d msg he (by rw [hl]; exact hq)
          rw [hl] at this
          exact this
      | ok gs =>
        dsimp only at hd ⊢
        simp only [List.mem_append] at hd
        rcases hd with hq | hq
        · exact mono_gpu_false hmono (hfail hq)
        · have := ih s1 d msg he (by rw [hl]; exact hq)
          rw [hl] at this
          exact this

theorem deviceLoop_fail_temp (env : Env) :
    ∀ (l : List Nat) (s : GPUInfoState) (d : Nat) (msg : String),
      env.temperature d = .error msg →
      (Metric.temp, d) ∈ (deviceLoop env s l).2.2 →
      (deviceLoop env s l).2.1.switchTemperature = false := by
  intro l
  induction l with
  | nil => intro s d msg he hd; simp [deviceLoop] at hd
  | cons i rest ih =>
    intro s d msg he hd
    unfold deviceLoop at hd ⊢
    rcases hs : stepDevice env s i with ⟨r, s1, q⟩
    have hfail : (Metric.temp, d) ∈ q → s1.switchTemperature = false := by
      intro hq
      have := stepDevice_fail_temp env s i d msg he (by rw [hs]; exact hq)
      rw [hs] at this
      exact this
    rw [hs] at hd
    cases r with
    | error e =>
      dsimp only at hd ⊢
      exact hfail hd
    | ok g =>
      dsimp only at hd ⊢
      rcases hl : deviceLoop env s1 rest with ⟨r2, s2, q2⟩
      have hmono : StateMono s1 s2 := by
        have := deviceLoop_mono env rest s1
        rw [hl] at this
        exact this
      rw [hl] at hd
      cases r2 with
      | error e =>
        dsimp only at hd ⊢
        simp only [List.mem_append] at hd
        rcases hd with hq | hq
        · exact mono_temp_false hmono (hfail hq)
        · have := ih s1 d msg he (by rw [hl]; exact hq)
          rw [hl] at this
          exact this
      | ok gs =>
        dsimp only at hd ⊢
        simp only [List.mem_append] at hd
        rcases hd with hq | hq
        · exact mono_temp_false hmono (hfail hq)
        · have := ih s1 d msg he (by rw [hl]; exact hq)
          rw [hl] at this
          exact this

/-! ### Disabled-switch and failure lemmas for getStatus and the tick loop -/

theorem getStatus_off_util (env : Env) (s : GPUInfoState)
    (h : s.switchGPU = false) :
    (∀ st, (getStatus env s).1 = .ok st → ∀ g ∈ st.gpus, g.gpu_utilization = 0) ∧
    (∀ d, (Metric.util, d) ∉ (getStatus env s).2.2) ∧
    (getStatus env s).2.1.switchGPU = false := by
  unfold getStatus
  split
  · obtain ⟨hval, hlog, hst⟩ := deviceLoop_off_util env (List.range s.cudaDevicesFound) s h
    rcases hl : deviceLoop env s (List.range s.cudaDevicesFound) with ⟨r, s1, q⟩
    rw [hl] at hval hlog hst
    dsimp only at hval hlog hst
    cases r with
    | error e => exact ⟨fun st hst2 => by simp at hst2, hlog, hst⟩
    | ok gs =>
      refine ⟨fun st hst2 => ?_, hlog, hst⟩
      cases hst2
      exact hval gs rfl
  · exact ⟨fun st hst2 => by cases hst2; exact fun g hg => absurd hg (List.not_mem_nil g),
      fun d hd => by simp at hd, h⟩

theorem getStatus_off_temp (env : Env) (s : GPUInfoState)
    (h : s.switchTemperature = false) :
    (∀ st, (getStatus env s).1 = .ok st → ∀ g ∈ st.gpus, g.gpu_temperature = 0) ∧
    (∀ d, (Metric.temp, d) ∉ (getStatus env s).2.2) ∧
    (getStatus env s).2.1.switchTemperature = false := by
  unfold getStatus
  split
  · obtain ⟨hval, hlog, hst⟩ := deviceLoop_off_temp env (List.range s.cudaDevicesFound) s h
    rcases hl : deviceLoop env s (List.range s.cudaDevicesFound) with ⟨r, s1, q⟩
    rw [hl] at hval hlog hst
    dsimp only at hval hlog hst
    cases r with
    | error e => exact ⟨fun st hst2 => by simp at hst2, hlog, hst⟩
    | ok gs =>
      refine ⟨fun st hst2 => ?_, hlog, hst⟩
      cases hst2
      exact hval gs rfl
  · exact ⟨fun st hst2 => by cases hst2; exact fun g hg => absurd hg (List.not_mem_nil g),
      fun d hd => by simp at hd, h⟩

theorem getStatus_fail_util (env : Env) (s : GPUInfoState) (d : Nat)
    (msg : String) (he : env.utilRates d = .error msg)
    (hd : (Metric.util, d) ∈ (getStatus env s).2.2) :
    (getStatus env s).2.1.switchGPU = false := by
  unfold getStatus at hd ⊢
  split at hd
  case isTrue hc =>
    rcases hl : deviceLoop env s (List.range s.cudaDevicesFound) with ⟨r, s1, q⟩
    have := deviceLoop_fail_util env (List.range s.cudaDevicesFound) s d msg he
    rw [hl] at this hd
    cases r with
    | error e =>
      rw [if_pos hc]
      dsimp only
      exact this hd
    | ok gs =>
      rw [if_pos hc]
      dsimp only
      exact this hd
  case isFalse hc =>
    simp at hd

theorem getStatus_fail_temp (env : Env) (s : GPUInfoState) (d : Nat)
    (msg : String) (he : env.temperature d = .error msg)
    (hd : (Metric.temp, d) ∈ (getStatus env s).2.2) :
    (getStatus env s).2.1.switchTemperature = false := by
  unfold getStatus at hd ⊢
  split at hd
  case isTrue hc =>
    rcases hl : deviceLoop env s (List.range s.cudaDevicesFound) with ⟨r, s1, q⟩
    have := deviceLoop_fail_temp env (List.range s.cudaDevicesFound) s d msg he
    rw [hl] at this hd
    cases r with
    | error e =>
      rw [if_pos hc]
      dsimp only
      exact this hd
    | ok gs =>
      rw [if_pos hc]
      dsimp only
      exact this hd
  case isFalse hc =>
    simp at hd

theorem runTicks_off_util :
    ∀ (es : List Env) (s : GPUInfoState), s.switchGPU = false →
      ∀ o ∈ (runTicks es s).1,
        (∀ g ∈ o.1.gpus, g.gpu_utilization = 0) ∧
        ∀ d, (Metric.util, d) ∉ o.2 := by
  intro es
  induction es with
  | nil => intro s h o ho; simp [runTicks] at ho
  | cons e es ih =>
    intro s h o ho
    unfold runTicks at ho
    obtain ⟨hval, hlog, hst⟩ := getStatus_off_util e s h
    rcases hg : getStatus e s with ⟨r, s1, q⟩
    rw [hg] at ho hval hlog hst
    dsimp only at ho hval hlog hst
    cases r with
    | error err => simp at ho
    | ok st =>
      dsimp only at ho
      rcases hr : runTicks es s1 with ⟨outs, s2, errOpt⟩
      rw [hr] at ho
      dsimp only at ho
      rcases List.mem_cons.1 ho with h2 | h2
      · rw [h2]
        exact ⟨hval st rfl, hlog⟩
      · have := ih s1 hst o
        rw [hr] at this
        exact this h2

theorem runTicks_off_temp :
    ∀ (es : List Env) (s : GPUInfoState), s.switchTemperature = false →
      ∀ o ∈ (runTicks es s).1,
        (∀ g ∈ o.1.gpus, g.gpu_temperature = 0) ∧
        ∀ d, (Metric.temp, d) ∉ o.2 := by
  intro es
  induction es with
  | nil => intro s h o ho; simp [runTicks] at ho
  | cons e es ih =>
    intro s h o ho
    unfold runTicks at ho
    obtain ⟨hval, hlog, hst⟩ := getStatus_off_temp e s h
    rcases hg : getStatus e s with ⟨r, s1, q⟩
    rw [hg] at ho hval hlog hst
    dsimp only at ho hval hlog hst
    cases r with
    | error err => simp at ho
    | ok st =>
      dsimp only at ho
      rcases hr : runTicks es s1 with ⟨outs, s2, errOpt⟩
      rw [hr] at ho
      dsimp only at ho
      rcases List.mem_cons.1 ho with h2 | h2
      · rw [h2]
        exact ⟨hval st rfl, hlog⟩
      · have := ih s1 hst o
        rw [hr] at this
        exact this h2

/-- Core temporal lemma, utilization: if the utilization query was issued
for device d on tick t and the library answered with an exception, then
every later tick of the same run shows utilization 0 for every device and
issues no utilization query at all. -/
theorem runTicks_fail_util_trace :
    ∀ (es : List Env) (s : GPUInfoState) (t t2 d : Nat) (msg : String)
      (ot ot2 : Status × List (Metric × Nat)) (et : Env),
      (runTicks es s).1[t]? = some ot →
      es[t]? = some et →
      (Metric.util, d) ∈ ot.2 →
      et.utilRates d = .error msg →
      t < t2 →
      (runTicks es s).1[t2]? = some ot2 →
      (∀ g ∈ ot2.1.gpus, g.gpu_utilization = 0) ∧
      ∀ d2, (Metric.util, d2) ∉ ot2.2 := by
  intro es
  induction es with
  | nil =>
    intro s t t2 d msg ot ot2 et h1 h2 h3 h4 h5 h6
    simp [runTicks] at h1
  | cons e es ih =>
    intro s t t2 d msg ot ot2 et h1 h2 h3 h4 h5 h6
    unfold runTicks at h1 h6
    rcases hg : getStatus e s with ⟨r, s1, q⟩
    rw [hg] at h1 h6
    cases r with
    | error err => dsimp only at h1; simp at h1
    | ok st =>
      dsimp only at h1 h6
      rcases hr : runTicks es s1 with ⟨outs, s2, errOpt⟩
      rw [hr] at h1 h6
      dsimp only at h1 h6
      cases t with
      | zero =>
        simp only [List.getElem?_cons_zero, Option.some_inj] at h1 h2
        subst h1
        subst h2
        have hoff : s1.switchGPU = false := by
          have := getStatus_fail_util e s d msg h4 (by rw [hg]; exact h3)
          rw [hg] at this
          exact this
        cases t2 with
        | zero => omega
        | succ t2p =>
          simp only [List.getElem?_cons_succ] at h6
          have hmem : ot2 ∈ outs := List.getElem?_mem h6
          have := runTicks_off_util es s1 hoff ot2 (by rw [hr]; exact hmem)
          exact this
      | succ tp =>
        cases t2 with
        | zero => omega
        | succ t2p =>
          simp only [List.getElem?_cons_succ] at h1 h2 h6
          exact ih s1 tp t2p d msg ot ot2 et (by rw [hr]; exact h1) h2 h3 h4
            (by omega) (by rw [hr]; exact h6)

/-- Core temporal lemma, temperature: same as the utilization version. -/
theorem runTicks_fail_temp_trace :
    ∀ (es : List Env) (s : GPUInfoState) (t t2 d : Nat) (msg : String)
      (ot ot2 : Status × List (Metric × Nat)) (et : Env),
      (runTicks es s).1[t]? = some ot →
      es[t]? = some et →
      (Metric.temp, d) ∈ ot.2 →
      et.temperature d = .error msg →
      t < t2 →
      (runTicks es s).1[t2]? = some ot2 →
      (∀ g ∈ ot2.1.gpus, g.gpu_temperature = 0) ∧
      ∀ d2, (Metric.temp, d2) ∉ ot2.2 := by
  intro es
  induction es with
  | nil =>
    intro s t t2 d msg ot ot2 et h1 h2 h3 h4 h5 h6
    simp [runTicks] at h1
  | cons e es ih =>
    intro s t t2 d msg ot ot2 et h1 h2 h3 h4 h5 h6
    unfold runTicks at h1 h6
    rcases hg : getStatus e s with ⟨r, s1, q⟩
    rw [hg] at h1 h6
    cases r with
    | error err => dsimp only at h1; simp at h1
    | ok st =>
      dsimp only at h1 h6
      rcases hr : runTicks es s1 with ⟨outs, s2, errOpt⟩
      rw [hr] at h1 h6
      dsimp only at h1 h6
      cases t with
      | zero =>
        simp only [List.getElem?_cons_zero, Option.some_inj] at h1 h2
        subst h1
        subst h2
        have hoff : s1.switchTemperature = false := by
          have := getStatus_fail_temp e s d msg h4 (by rw [hg]; exact h3)
          rw [hg] at this
          exact this
        cases t2 with
        | zero => omega
        | succ t2p =>
          simp only [List.getElem?_cons_succ] at h6
          have hmem : ot2 ∈ outs := List.getElem?_mem h6
          have := runTicks_off_temp es s1 hoff ot2 (by rw [hr]; exact hmem)
          exact this
      | succ tp =>
        cases t2 with
        | zero => omega
        | succ t2p =>
          simp only [List.getElem?_cons_succ] at h1 h2 h6
          exact ih s1 tp t2p d msg ot ot2 et (by rw [hr]; exact h1) h2 h3 h4
            (by omega) (by rw [hr]; exact h6)

/-! ### Success-path lemmas -/

theorem utilPart_ok (env : Env) (s : GPUInfoState) (i : Nat)
    (h : (s.gpusUtilization[i]?).isSome = true) :
    ∃ u s1 q, utilPart env s i = .ok (u, s1, q) := by
  unfold utilPart
  by_cases hsw : s.switchGPU = true
  · rw [if_pos hsw]
    rcases hix : s.gpusUtilization[i]? with _ | flag
    · rw [hix] at h; simp at h
    · dsimp only
      cases flag
      · exact ⟨0, s, [], by simp⟩
      · rcases hur : env.utilRates i with m2 | u
        · exact ⟨0, { s with switchGPU := false }, [(.util, i)], by simp⟩
        · exact ⟨u, s, [(.util, i)], by simp⟩
  · rw [if_neg hsw]
    exact ⟨0, s, [], rfl⟩

theorem tempPart_ok (env : Env) (s : GPUInfoState) (i : Nat)
    (h : (s.gpusTemperature[i]?).isSome = true) :
    ∃ t s1 q, tempPart env s i = .ok (t, s1, q) := by
  unfold tempPart
  by_cases hsw : s.switchTemperature = true
  · rw [if_pos hsw]
    rcases hix : s.gpusTemperature[i]? with _ | flag
    · rw [hix] at h; simp at h
    · dsimp only
      cases flag
      · exact ⟨0, s, [], by simp⟩
      · rcases hur : env.temperature i with m2 | t
        · exact ⟨0, { s with switchTemperature := false }, [(.temp, i)], by simp⟩
        · exact ⟨t, s, [(.temp, i)], by simp⟩
  · rw [if_neg hsw]
    exact ⟨0, s, [], rfl⟩

theorem stepDevice_ok (env : Env) (s : GPUInfoState) (i : Nat)
    (hU : (s.gpusUtilization[i]?).isSome = true)
    (hT : (s.gpusTemperature[i]?).isSome = true)
    (hV : ∃ r q, vramPart env s i = .ok (r, q)) :
    ∃ g s2 q, stepDevice env s i = (.ok g, s2, q) := by
  obtain ⟨u, s1, q1, hu⟩ := utilPart_ok env s i hU
  obtain ⟨hvr, hvl⟩ : s1.switchVRAM = s.switchVRAM ∧ s1.gpusVRAM = s.gpusVRAM := by
    rcases utilPart_state env s i u s1 q1 hu with h2 | h2 <;> rw [h2] <;> exact ⟨rfl, rfl⟩
  have hTl : s1.gpusTemperature = s.gpusTemperature := by
    rcases utilPart_state env s i u s1 q1 hu with h2 | h2 <;> rw [h2]
  obtain ⟨r, q2, hv⟩ := hV
  have hv1 : vramPart env s1 i = .ok (r, q2) := by
    rw [vramPart_congr env s s1 i hvr hvl]
    exact hv
  obtain ⟨t, s2, q3, ht⟩ := tempPart_ok env s1 i (by rw [hTl]; exact hT)
  unfold stepDevice
  rw [hu]
  dsimp only
  rw [hv1]
  dsimp only
  rw [ht]
  dsimp only
  rcases r with ⟨vu, vt, vp⟩
  exact ⟨_, _, _, rfl⟩

theorem deviceLoop_ok (env : Env) :
    ∀ (l : List Nat) (s : GPUInfoState),
      (∀ i ∈ l, (s.gpusUtilization[i]?).isSome = true ∧
        (s.gpusTemperature[i]?).isSome = true ∧
        ∃ r q, vramPart env s i = .ok (r, q)) →
      ∃ gs s2 q, deviceLoop env s l = (.ok gs, s2, q) := by
  intro l
  induction l with
  | nil => intro s hyp; exact ⟨[], s, [], rfl⟩
  | cons i rest ih =>
    intro s hyp
    obtain ⟨hU, hT, hV⟩ := hyp i (List.mem_cons_self i rest)
    obtain ⟨g, s1, q, hs⟩ := stepDevice_ok env s i hU hT hV
    have hmono : StateMono s s1 := by
      have := stepDevice_mono env s i
      rw [hs] at this
      exact this
    obtain ⟨_, _, _, _, hvr, _, _, hul, hvl, htl⟩ := hmono
    obtain ⟨gs, s2, q2, hl⟩ := ih s1 (by
      intro j hj
      obtain ⟨hU2, hT2, r2, q3, hV2⟩ := hyp j (List.mem_cons_of_mem i hj)
      refine ⟨by rw [hul]; exact hU2, by rw [htl]; exact hT2, r2, q3, ?_⟩
      rw [vramPart_congr env s s1 j hvr hvl]
      exact hV2)
    unfold deviceLoop
    rw [hs]
    dsimp only
    rw [hl]
    exact ⟨_, _, _, rfl⟩

theorem stepDevice_fullOk (env : Env) (s : GPUInfoState) (i : Nat)
    (hg : s.switchGPU = true) (hv : s.switchVRAM = true)
    (ht : s.switchTemperature = true)
    (hfu : s.gpusUtilization[i]? = some true)
    (hfv : s.gpusVRAM[i]? = some true)
    (hft : s.gpusTemperature[i]? = some true)
    (hu : ∃ u, env.utilRates i = .ok u)
    (hm : ∃ m, env.memInfo i = .ok m ∧ m.total ≠ 0)
    (htp : ∃ t, env.temperature i = .ok t) :
    stepDevice env s i =
      (.ok (sampleOf env i), s, [(.util, i), (.vram, i), (.temp, i)]) := by
  obtain ⟨u, hu⟩ := hu
  obtain ⟨m, hm, hm0⟩ := hm
  obtain ⟨t, htp⟩ := htp
  have hP1 : utilPart env s i = .ok (u, s, [(.util, i)]) := by
    unfold utilPart
    rw [hg, hfu, hu]
    rfl
  have hP2 : vramPart env s i =
      .ok ((m.used, m.total, (m.used : ℚ) / (m.total : ℚ) * 100), [(.vram, i)]) := by
    unfold vramPart
    rw [hv, hfv, hm]
    simp [hm0]
  have hP3 : tempPart env s i = .ok (t, s, [(.temp, i)]) := by
    unfold tempPart
    rw [ht, hft, htp]
    rfl
  unfold stepDevice
  rw [hP1]
  dsimp only
  rw [hP2]
  dsimp only
  rw [hP3]
  dsimp only
  simp [sampleOf, hu, hm, htp, Except.toOption]

theorem deviceLoop_fullOk (env : Env) :
    ∀ (l : List Nat) (s : GPUInfoState),
      s.switchGPU = true → s.switchVRAM = true → s.switchTemperature = true →
      (∀ i ∈ l, s.gpusUtilization[i]? = some true ∧ s.gpusVRAM[i]? = some true ∧
        s.gpusTemperature[i]? = some true ∧ (∃ u, env.utilRates i = .ok u) ∧
        (∃ m, env.memInfo i = .ok m ∧ m.total ≠ 0) ∧
        ∃ t, env.temperature i = .ok t) →
      (deviceLoop env s l).1 = .ok (l.map (sampleOf env)) ∧
      (deviceLoop env s l).2.1 = s := by
  intro l
  induction l with
  | nil => intro s _ _ _ _; exact ⟨rfl, rfl⟩
  | cons i rest ih =>
    intro s hg hv ht hyp
    obtain ⟨hfu, hfv, hft, hu, hm, htp⟩ := hyp i (List.mem_cons_self i rest)
    have hs := stepDevice_fullOk env s i hg hv ht hfu hfv hft hu hm htp
    obtain ⟨ihv, ihs⟩ := ih s hg hv ht
      (fun j hj => hyp j (List.mem_cons_of_mem i hj))
    unfold deviceLoop
    rw [hs]
    dsimp only
    rcases hl : deviceLoop env s rest with ⟨r2, s2, q2⟩
    rw [hl] at ihv ihs
    dsimp only at ihv ihs
    cases r2 with
    | error e => exact absurd ihv (by simp)
    | ok gs =>
      dsimp only
      cases ihv
      rw [ihs]
      exact ⟨rfl, rfl⟩

/-! ### Length and not-loaded lemmas -/

theorem deviceLoop_length (env : Env) :
    ∀ (l : List Nat) (s : GPUInfoState) (gs : List GpuSample)
      (s2 : GPUInfoState) (q : List (Metric × Nat)),
      deviceLoop env s l = (.ok gs, s2, q) → gs.length = l.length := by
  intro l
  induction l with
  | nil => intro s gs s2 q h; cases h; rfl
  | cons i rest ih =>
    intro s gs s2 q h
    unfold deviceLoop at h
    rcases hs : stepDevice env s i with ⟨r, s1, q1⟩
    rw [hs] at h
    cases r with
    | error e => exact absurd h (by simp)
    | ok g =>
      dsimp only at h
      rcases hl : deviceLoop env s1 rest with ⟨r2, s2b, q2⟩
      rw [hl] at h
      cases r2 with
      | error e => exact absurd h (by simp)
      | ok gs2 =>
        dsimp only at h
        cases h
        have := ih s1 gs2 _ _ hl
        simp [this]

theorem getStatus_gpus_length (env : Env) (s : GPUInfoState) :
    ∀ st, (getStatus env s).1 = .ok st →
      st.gpus.length =
        if (s.pynvmlLoaded && s.cuda) = true then s.cudaDevicesFound else 0 := by
  intro st h
  unfold getStatus at h
  split at h
  case isTrue hc =>
    rw [if_pos hc]
    rcases hl : deviceLoop env s (List.range s.cudaDevicesFound) with ⟨r, s1, q⟩
    rw [hl] at h
    cases r with
    | error e => exact absurd h (by simp)
    | ok gs =>
      dsimp only at h
      cases h
      have := deviceLoop_length env (List.range s.cudaDevicesFound) s gs s1 q hl
      simpa using this
  case isFalse hc =>
    rw [if_neg hc]
    dsimp only at h
    cases h
    rfl

theorem getStatus_notLoaded (env : Env) (s : GPUInfoState)
    (h : s.pynvmlLoaded = false) :
    getStatus env s = (.ok { device_type := "", gpus := [] }, s, []) := by
  unfold getStatus
  rw [h]
  rfl

theorem runTicks_notLoaded :
    ∀ (es : List Env) (s : GPUInfoState), s.pynvmlLoaded = false →
      runTicks es s =
        (es.map (fun _ => ({ device_type := "", gpus := [] }, [])), s, none) := by
  intro es
  induction es with
  | nil => intro s h; rfl
  | cons e es ih =>
    intro s h
    unfold runTicks
    rw [getStatus_notLoaded e s h]
    dsimp only
    rw [ih s h]
    rfl

theorem runTicks_gpus_length :
    ∀ (es : List Env) (s : GPUInfoState),
      ∀ o ∈ (runTicks es s).1,
        o.1.gpus.length =
          if (s.pynvmlLoaded && s.cuda) = true then s.cudaDevicesFound else 0 := by
  intro es
  induction es with
  | nil => intro s o ho; simp [runTicks] at ho
  | cons e es ih =>
    intro s o ho
    unfold runTicks at ho
    rcases hg : getStatus e s with ⟨r, s1, q⟩
    rw [hg] at ho
    cases r with
    | error err => dsimp only at ho; simp at ho
    | ok st =>
      dsimp only at ho
      rcases hr : runTicks es s1 with ⟨outs, s2, errOpt⟩
      rw [hr] at ho
      dsimp only at ho
      have hmono : StateMono s s1 := by
        have := getStatus_mono e s
        rw [hg] at this
        exact this
      obtain ⟨hcu, hpy, hcnt, _⟩ := hmono
      rcases List.mem_cons.1 ho with h2 | h2
      · rw [h2]
        have := getStatus_gpus_length e s st (by rw [hg])
        exact this
      · have := ih s1 o (by rw [hr]; exact h2)
        rw [hcu, hpy, hcnt] at this
        exact this

theorem runTicks_length :
    ∀ (es : List Env) (s : GPUInfoState),
      (runTicks es s).2.2 = none → (runTicks es s).1.length = es.length := by
  intro es
  induction es with
  | nil => intro s h; rfl
  | cons e es ih =>
    intro s h
    unfold runTicks at h ⊢
    rcases hg : getStatus e s with ⟨r, s1, q⟩
    rw [hg] at h
    cases r with
    | error err => dsimp only at h; exact absurd h (by simp)
    | ok st =>
      dsimp only at h ⊢
      rcases hr : runTicks es s1 with ⟨outs, s2, errOpt⟩
      rw [hr] at h
      dsimp only at h ⊢
      have := ih s1
      rw [hr] at this
      simp [this h]

/-! ### Facts about the constructed initial state -/

theorem initGPUInfo_loaded (ie : InitEnv) (h1 : ie.initOk = true)
    (h2 : 0 < ie.deviceCount) :
    ((initGPUInfo ie).pynvmlLoaded && (initGPUInfo ie).cuda) = true ∧
    (initGPUInfo ie).cudaDevicesFound = ie.deviceCount ∧
    (initGPUInfo ie).switchGPU = true ∧ (initGPUInfo ie).switchVRAM = true ∧
    (initGPUInfo ie).switchTemperature = true := by
  unfold initGPUInfo
  rw [if_pos (by simp [h1, h2])]
  exact ⟨rfl, rfl, rfl, rfl, rfl⟩

theorem initGPUInfo_flags (ie : InitEnv) (h1 : ie.initOk = true)
    (h2 : 0 < ie.deviceCount) (i : Nat) (hi : i < ie.deviceCount) :
    (initGPUInfo ie).gpusUtilization[i]? = some true ∧
    (initGPUInfo ie).gpusVRAM[i]? = some true ∧
    (initGPUInfo ie).gpusTemperature[i]? = some true := by
  unfold initGPUInfo
  rw [if_pos (by simp [h1, h2])]
  refine ⟨?_, ?_, ?_⟩ <;> simp [List.getElem?_replicate, hi]

theorem initGPUInfo_count_zero (ie : InitEnv)
    (h : ((initGPUInfo ie).pynvmlLoaded && (initGPUInfo ie).cuda) = false) :
    (initGPUInfo ie).cudaDevicesFound = 0 := by
  unfold initGPUInfo at h ⊢
  by_cases hc : (ie.initOk && decide (0 < ie.deviceCount)) = true
  · rw [if_pos hc] at h; simp at h
  · rw [if_neg hc]

/-! ### getStatus and runTicks on fully successful oracles -/

theorem getStatus_fullOk (env : Env) (s : GPUInfoState)
    (hload : (s.pynvmlLoaded && s.cuda) = true)
    (hg : s.switchGPU = true) (hv : s.switchVRAM = true)
    (ht : s.switchTemperature = true)
    (hflags : ∀ i < s.cudaDevicesFound, s.gpusUtilization[i]? = some true ∧
      s.gpusVRAM[i]? = some true ∧ s.gpusTemperature[i]? = some true)
    (he : FullyOk env s.cudaDevicesFound) :
    (getStatus env s).1 =
      .ok { device_type := "",
            gpus := (List.range s.cudaDevicesFound).map (sampleOf env) } ∧
    (getStatus env s).2.1 = s := by
  have hdl := deviceLoop_fullOk env (List.range s.cudaDevicesFound) s hg hv ht (by
    intro i hi
    have hi2 : i < s.cudaDevicesFound := List.mem_range.1 hi
    obtain ⟨f1, f2, f3⟩ := hflags i hi2
    obtain ⟨e1, e2, e3⟩ := he i hi2
    exact ⟨f1, f2, f3, e1, e2, e3⟩)
  unfold getStatus
  rw [if_pos hload]
  rcases hl : deviceLoop env s (List.range s.cudaDevicesFound) with ⟨r, s1, q⟩
  rw [hl] at hdl
  obtain ⟨hdv, hds⟩ := hdl
  dsimp only at hdv hds
  cases r with
  | error e => exact absurd hdv (by simp)
  | ok gs =>
    dsimp only
    cases hdv
    rw [hds]
    exact ⟨rfl, rfl⟩

theorem runTicks_fullOk :
    ∀ (es : List Env) (s : GPUInfoState),
      (s.pynvmlLoaded && s.cuda) = true → s.switchGPU = true →
      s.switchVRAM = true → s.switchTemperature = true →
      (∀ i < s.cudaDevicesFound, s.gpusUtilization[i]? = some true ∧
        s.gpusVRAM[i]? = some true ∧ s.gpusTemperature[i]? = some true) →
      (∀ e ∈ es, FullyOk e s.cudaDevicesFound) →
      ∀ (t : Nat) (o : Status × List (Metric × Nat)) (et : Env),
        (runTicks es s).1[t]? = some o → es[t]? = some et →
        o.1 = { device_type := "",
                gpus := (List.range s.cudaDevicesFound).map (sampleOf et) } := by
  intro es
  induction es with
  | nil => intro s _ _ _ _ _ _ t o et h1 h2; simp at h2
  | cons e es ih =>
    intro s hload hg hv ht hflags he t o et h1 h2
    obtain ⟨hcv, hcs⟩ := getStatus_fullOk e s hload hg hv ht hflags
      (he e (List.mem_cons_self e es))
    unfold runTicks at h1
    rcases hG : getStatus e s with ⟨r, s1, q⟩
    rw [hG] at h1 hcv hcs
    dsimp only at h1 hcv hcs
    cases r with
    | error err => exact absurd hcv (by simp)
    | ok st =>
      dsimp only at h1
      rcases hr : runTicks es s1 with ⟨outs, s2, errOpt⟩
      rw [hr] at h1
      dsimp only at h1
      cases t with
      | zero =>
        simp only [List.getElem?_cons_zero, Option.some_inj] at h1 h2
        subst h1
        subst h2
        cases hcv
        rfl
      | succ tp =>
        simp only [List.getElem?_cons_succ] at h1 h2
        subst hcs
        exact ih s1 hload hg hv ht hflags
          (fun e2 he2 => he e2 (List.mem_cons_of_mem e he2)) tp o et
          (by rw [hr]; exact h1) h2

/-! ### VRAM failure computations and first-device utilization failure -/

theorem vramPart_memErr (env : Env) (s : GPUInfoState) (i : Nat) (msg : String)
    (hv : s.switchVRAM = true) (hf : s.gpusVRAM[i]? = some true)
    (hm : env.memInfo i = .error msg) :
    vramPart env s i = .error (.nvmlError msg) := by
  unfold vramPart
  rw [hv, hf, hm]
  rfl

theorem vramPart_zeroTotal (env : Env) (s : GPUInfoState) (i : Nat) (m : MemInfo)
    (hv : s.switchVRAM = true) (hf : s.gpusVRAM[i]? = some true)
    (hm : env.memInfo i = .ok m) (h0 : m.total = 0) :
    vramPart env s i = .error .zeroDivision := by
  unfold vramPart
  rw [hv, hf, hm]
  simp [h0]

theorem vramPart_okTotal (env : Env) (s : GPUInfoState) (i : Nat) (m : MemInfo)
    (hv : s.switchVRAM = true) (hf : s.gpusVRAM[i]? = some true)
    (hm : env.memInfo i = .ok m) (h0 : m.total ≠ 0) :
    vramPart env s i =
      .ok ((m.used, m.total, (m.used : ℚ) / (m.total : ℚ) * 100), [(.vram, i)]) := by
  unfold vramPart
  rw [hv, hf, hm]
  simp [h0]

theorem getStatus_vram_error (env : Env) (s : GPUInfoState) (errv : PyErr)
    (hload : (s.pynvmlLoaded && s.cuda) = true)
    (hcnt : 0 < s.cudaDevicesFound)
    (hU0 : (s.gpusUtilization[0]?).isSome = true)
    (herr : vramPart env s 0 = .error errv) :
    (getStatus env s).1 = .error errv := by
  obtain ⟨u, s1, q1, hu⟩ := utilPart_ok env s 0 hU0
  have hcong : vramPart env s1 0 = .error errv := by
    obtain ⟨hvr, hvl⟩ : s1.switchVRAM = s.switchVRAM ∧ s1.gpusVRAM = s.gpusVRAM := by
      rcases utilPart_state env s 0 u s1 q1 hu with h2 | h2 <;> rw [h2] <;> exact ⟨rfl, rfl⟩
    rw [vramPart_congr env s s1 0 hvr hvl]
    exact herr
  have hstep : stepDevice env s 0 = (.error errv, s1, q1) := by
    unfold stepDevice
    rw [hu]
    dsimp only
    rw [hcong]
  obtain ⟨n, hn⟩ : ∃ n, s.cudaDevicesFound = n + 1 :=
    ⟨s.cudaDevicesFound - 1, by omega⟩
  unfold getStatus
  rw [if_pos hload, hn, List.range_succ_eq_map]
  unfold deviceLoop
  rw [hstep]

theorem getStatus_failFirst_util (env : Env) (s : GPUInfoState) (msg : String)
    (hload : (s.pynvmlLoaded && s.cuda) = true)
    (hcnt : 0 < s.cudaDevicesFound)
    (hg : s.switchGPU = true)
    (hf0 : s.gpusUtilization[0]? = some true)
    (herr : env.utilRates 0 = .error msg) :
    (∀ st, (getStatus env s).1 = .ok st → ∀ g ∈ st.gpus, g.gpu_utilization = 0) ∧
    (getStatus env s).2.1.switchGPU = false := by
  have hP1 : utilPart env s 0 =
      .ok (0, { s with switchGPU := false }, [(.util, 0)]) := by
    unfold utilPart
    rw [hg, hf0, herr]
    rfl
  obtain ⟨n, hn⟩ : ∃ n, s.cudaDevicesFound = n + 1 :=
    ⟨s.cudaDevicesFound - 1, by omega⟩
  unfold getStatus
  rw [if_pos hload, hn, List.range_succ_eq_map]
  unfold deviceLoop
  unfold stepDevice
  rw [hP1]
  dsimp only
  rcases hv : vramPart env { s with switchGPU := false } 0 with e | ⟨⟨vu, vt, vp⟩, q2⟩
  · exact ⟨fun st hst => by simp at hst, rfl⟩
  · dsimp only
    rcases ht : tempPart env { s with switchGPU := false } 0 with e | ⟨t, s2, q3⟩
    · exact ⟨fun st hst => by simp at hst, rfl⟩
    · dsimp only
      have hs2 : s2.switchGPU = false := by
        rcases tempPart_state env { s with switchGPU := false } 0 t s2 q3 ht with h2 | h2 <;>
          rw [h2]
      obtain ⟨lval, llog, lst⟩ :=
        deviceLoop_off_util env ((List.range n).map Nat.succ) s2 hs2
      rcases hl : deviceLoop env s2 ((List.range n).map Nat.succ) with ⟨r2, s3, q4⟩
      rw [hl] at lval llog lst
      dsimp only at lval llog lst
      cases r2 with
      | error e => exact ⟨fun st hst => by simp at hst, lst⟩
      | ok gs =>
        dsimp only
        refine ⟨fun st hst => ?_, lst⟩
        cases hst
        intro g hg2
        rcases List.mem_cons.1 hg2 with h2 | h2
        · rw [h2]
        · exact lval gs rfl g h2

theorem runTicks_cons_ok (e : Env) (es : List Env) (s : GPUInfoState)
    (st : Status) (s1 : GPUInfoState) (q : List (Metric × Nat))
    (h : getStatus e s = (.ok st, s1, q)) :
    (runTicks (e :: es) s).1 = (st, q) :: (runTicks es s1).1 := by
  rcases hr : runTicks es s1 with ⟨outs, s2, errOpt⟩
  unfold runTicks
  rw [h]
  dsimp only
  rw [hr]

theorem runTicks_failFirst_util (e3 : Env) (rest : List Env) (s : GPUInfoState)
    (msg : String)
    (hload : (s.pynvmlLoaded && s.cuda) = true)
    (hcnt : 0 < s.cudaDevicesFound)
    (hg : s.switchGPU = true)
    (hf0 : s.gpusUtilization[0]? = some true)
    (herr : e3.utilRates 0 = .error msg) :
    ∀ (t : Nat) (o : Status × List (Metric × Nat)),
      (runTicks (e3 :: rest) s).1[t]? = some o →
      ∀ g ∈ o.1.gpus, g.gpu_utilization = 0 := by
  intro t o h1
  obtain ⟨hval, hst⟩ := getStatus_failFirst_util e3 s msg hload hcnt hg hf0 herr
  unfold runTicks at h1
  rcases hG : getStatus e3 s with ⟨r, s1, q⟩
  rw [hG] at h1 hval hst
  dsimp only at h1 hval hst
  cases r with
  | error err => simp at h1
  | ok st =>
    dsimp only at h1
    rcases hr : runTicks rest s1 with ⟨outs, s2, errOpt⟩
    rw [hr] at h1
    dsimp only at h1
    cases t with
    | zero =>
      simp only [List.getElem?_cons_zero, Option.some_inj] at h1
      subst h1
      exact hval st rfl
    | succ tp =>
      simp only [List.getElem?_cons_succ] at h1
      have hmem : o ∈ outs := List.getElem?_mem h1
      exact (runTicks_off_util rest s1 hst o (by rw [hr]; exact hmem)).1

theorem sampleOf_util (env : Env) (i : Nat) (u : Int)
    (h : env.utilRates i = .ok u) : (sampleOf env i).gpu_utilization = u := by
  simp [sampleOf, h, Except.toOption]

/-! ### The claims -/

/-- Claim C9: the device_type field of every record returned by getStatus
equals the empty string, regardless of whether library initialization
succeeded, how many devices were enumerated, or what any query returned:
the local gpuType of main.py line 80 is never reassigned. -/
theorem claim_C9_device_type_empty (env : Env) (s : GPUInfoState) :
    ∀ st, (getStatus env s).1 = .ok st → st.device_type = "" := by
  intro st h
  unfold getStatus at h
  split at h
  · rcases hl : deviceLoop env s (List.range s.cudaDevicesFound) with ⟨r, s1, q⟩
    rw [hl] at h
    cases r with
    | error e => exact absurd h (by simp)
    | ok gs =>
      dsimp only at h
      cases h
      rfl
  · dsimp only at h
    cases h
    rfl

theorem claim_C9_witness :
    Status.device_type
      { device_type := "",
        gpus := [{ gpu_utilization := 10, gpu_temperature := 40,
                   vram_total := 100, vram_used := 50,
                   vram_used_percent := (50 : ℚ) / 100 * 100 }] } = "" :=
  claim_C9_device_type_empty wEnvOk (initGPUInfo wIE1) _ rfl

/-- Claim C4: every enable-flag is monotone across a getStatus call: the
three switches can only move from true to false, and the per-device
enable lists are never modified at all; nothing ever turns a flag back
on. This holds whether the call returns or raises. -/
theorem claim_C4_flags_monotone (env : Env) (s : GPUInfoState)
    (r : Except PyErr Status) (s1 : GPUInfoState) (q : List (Metric × Nat))
    (h : getStatus env s = (r, s1, q)) :
    (s1.switchGPU = true → s.switchGPU = true) ∧
    s1.switchVRAM = s.switchVRAM ∧
    (s1.switchTemperature = true → s.switchTemperature = true) ∧
    s1.gpusUtilization = s.gpusUtilization ∧
    s1.gpusVRAM = s.gpusVRAM ∧
    s1.gpusTemperature = s.gpusTemperature := by
  have := getStatus_mono env s
  rw [h] at this
  obtain ⟨_, _, _, d1, e1, f1, _, g1, g2, g3⟩ := this
  exact ⟨d1, e1, f1, g1, g2, g3⟩

theorem claim_C4_witness :
    (({ initGPUInfo wIE1 with switchGPU := false } : GPUInfoState).switchGPU = true →
      (initGPUInfo wIE1).switchGPU = true) ∧
    ({ initGPUInfo wIE1 with switchGPU := false } : GPUInfoState).switchVRAM =
      (initGPUInfo wIE1).switchVRAM ∧
    (({ initGPUInfo wIE1 with switchGPU := false } : GPUInfoState).switchTemperature = true →
      (initGPUInfo wIE1).switchTemperature = true) ∧
    ({ initGPUInfo wIE1 with switchGPU := false } : GPUInfoState).gpusUtilization =
      (initGPUInfo wIE1).gpusUtilization ∧
    ({ initGPUInfo wIE1 with switchGPU := false } : GPUInfoState).gpusVRAM =
      (initGPUInfo wIE1).gpusVRAM ∧
    ({ initGPUInfo wIE1 with switchGPU := false } : GPUInfoState).gpusTemperature =
      (initGPUInfo wIE1).gpusTemperature :=
  claim_C4_flags_monotone wEnvFail0 (initGPUInfo wIE1)
    (.ok { device_type := "",
           gpus := [{ gpu_utilization := 0, gpu_temperature := 40,
                      vram_total := 100, vram_used := 50,
                      vram_used_percent := (50 : ℚ) / 100 * 100 }] })
    { initGPUInfo wIE1 with switchGPU := false }
    [(.util, 0), (.vram, 0), (.temp, 0)] rfl

/-- Claim C5: if nvmlInit fails, construction still yields a state (fails
soft) and every subsequent getStatus call of the whole run returns
exactly the record with empty device_type and empty gpus, with no
exception and no state change, forever. -/
theorem claim_C5_init_fail_soft (ie : InitEnv) (es : List Env)
    (h : ie.initOk = false) :
    runTicks es (initGPUInfo ie) =
      (es.map (fun _ => ({ device_type := "", gpus := [] }, [])),
       initGPUInfo ie, none) := by
  apply runTicks_notLoaded
  unfold initGPUInfo
  by_cases hc : (ie.initOk && decide (0 < ie.deviceCount)) = true
  · rw [h] at hc
    simp at hc
  · rw [if_neg hc]
    exact h

theorem claim_C5_witness :
    runTicks [wEnvOk, wEnvOkB] (initGPUInfo wIEbad) =
      ([({ device_type := "", gpus := [] }, []),
        ({ device_type := "", gpus := [] }, [])],
       initGPUInfo wIEbad, none) :=
  claim_C5_init_fail_soft wIEbad [wEnvOk, wEnvOkB] rfl

/-- Claim C8: a UnicodeDecodeError while reading a device display name
does not make enumeration fail: the device is still recorded at its
index, with the placeholder name substituted. -/
theorem claim_C8_decode_failure_soft (ie : InitEnv) (d : Nat)
    (h1 : ie.initOk = true) (h2 : 0 < ie.deviceCount)
    (hd : d < ie.deviceCount)
    (hname : ie.getName d = .unicodeDecodeError) :
    (initGPUInfo ie).gpus.length = ie.deviceCount ∧
    (initGPUInfo ie).gpus[d]? =
      some { index := d, name := "Unknown GPU (decoding error)" } := by
  unfold initGPUInfo
  rw [if_pos (by simp [h1, h2])]
  refine ⟨by simp, ?_⟩
  simp [List.getElem?_map, List.getElem?_range, hd, enumName, hname]

theorem claim_C8_witness :
    (initGPUInfo wIEdec).gpus.length = 2 ∧
    (initGPUInfo wIEdec).gpus[0]? =
      some { index := 0, name := "Unknown GPU (decoding error)" } :=
  claim_C8_decode_failure_soft wIEdec 0 rfl (by decide) (by decide) rfl

/-- Claim C10: the vram_used_percent division has no zero guard: when the
memory query reports total equal to 0 for the first device while the VRAM
switch is enabled, getStatus raises ZeroDivisionError; with a nonzero
total the division is well defined and produces used divided by total
times 100. -/
theorem claim_C10_division_guard (ie : InitEnv) (env : Env) (m : MemInfo)
    (h1 : ie.initOk = true) (h2 : 0 < ie.deviceCount)
    (hm : env.memInfo 0 = .ok m) :
    (m.total = 0 → (getStatus env (initGPUInfo ie)).1 = .error .zeroDivision) ∧
    (m.total ≠ 0 → vramPart env (initGPUInfo ie) 0 =
      .ok ((m.used, m.total, (m.used : ℚ) / (m.total : ℚ) * 100), [(.vram, 0)])) := by
  obtain ⟨hload, hcount, hg, hv, ht⟩ := initGPUInfo_loaded ie h1 h2
  obtain ⟨f1, f2, f3⟩ := initGPUInfo_flags ie h1 h2 0 h2
  constructor
  · intro h0
    exact getStatus_vram_error env (initGPUInfo ie) .zeroDivision hload
      (by rw [hcount]; exact h2) (by rw [f1]; rfl)
      (vramPart_zeroTotal env _ 0 m hv f2 hm h0)
  · intro h0
    exact vramPart_okTotal env _ 0 m hv f2 hm h0

theorem claim_C10_witness :
    (({ used := 0, total := 0 } : MemInfo).total = 0 →
      (getStatus wEnvZero (initGPUInfo wIE1)).1 = .error .zeroDivision) ∧
    (({ used := 0, total := 0 } : MemInfo).total ≠ 0 →
      vramPart wEnvZero (initGPUInfo wIE1) 0 =
        .ok ((({ used := 0, total := 0 } : MemInfo).used,
              ({ used := 0, total := 0 } : MemInfo).total,
              ((({ used := 0, total := 0 } : MemInfo).used : ℚ) /
                (({ used := 0, total := 0 } : MemInfo).total : ℚ) * 100)),
             [(.vram, 0)])) :=
  claim_C10_division_guard wIE1 wEnvZero { used := 0, total := 0 } rfl
    (by decide) rfl

/-- Claim C2: inside getStatus a VRAM (memory-info) query failure
propagates uncaught and aborts the tick, whereas utilization and
temperature failures are caught: as long as every enabled memory query
answers with a nonzero total, getStatus returns ok no matter what the
utilization and temperature queries do. -/
theorem claim_C2_vram_asymmetry (ie : InitEnv) (env : Env) (msg : String) :
    (ie.initOk = true → 0 < ie.deviceCount → env.memInfo 0 = .error msg →
      (getStatus env (initGPUInfo ie)).1 = .error (.nvmlError msg)) ∧
    ((∀ i < (initGPUInfo ie).cudaDevicesFound,
        ∃ m, env.memInfo i = .ok m ∧ m.total ≠ 0) →
      ∃ st, (getStatus env (initGPUInfo ie)).1 = .ok st) := by
  constructor
  · intro h1 h2 hm
    obtain ⟨hload, hcount, hg, hv, ht⟩ := initGPUInfo_loaded ie h1 h2
    obtain ⟨f1, f2, f3⟩ := initGPUInfo_flags ie h1 h2 0 h2
    exact getStatus_vram_error env _ (.nvmlError msg) hload
      (by rw [hcount]; exact h2) (by rw [f1]; rfl)
      (vramPart_memErr env _ 0 msg hv f2 hm)
  · intro hmem
    by_cases hini : (ie.initOk && decide (0 < ie.deviceCount)) = true
    · simp only [Bool.and_eq_true, decide_eq_true_eq] at hini
      obtain ⟨h1, h2⟩ := hini
      obtain ⟨hload, hcount, hg, hv, ht⟩ := initGPUInfo_loaded ie h1 h2
      obtain ⟨gs, s2, q, hdl⟩ := deviceLoop_ok env
        (List.range (initGPUInfo ie).cudaDevicesFound) (initGPUInfo ie) (by
          intro i hi
          have hi2 : i < (initGPUInfo ie).cudaDevicesFound := List.mem_range.1 hi
          obtain ⟨f1, f2, f3⟩ := initGPUInfo_flags ie h1 h2 i (by
            rw [hcount] at hi2
            exact hi2)
          obtain ⟨m, hmk, hm0⟩ := hmem i hi2
          exact ⟨by rw [f1]; rfl, by rw [f3]; rfl,
            _, _, vramPart_okTotal env _ i m hv f2 hmk hm0⟩)
      refine ⟨{ device_type := "", gpus := gs }, ?_⟩
      unfold getStatus
      rw [if_pos hload, hdl]
    · have hcu : (initGPUInfo ie).cuda = false := by
        unfold initGPUInfo
        rw [if_neg hini]
      refine ⟨{ device_type := "", gpus := [] }, ?_⟩
      unfold getStatus
      rw [hcu]
      simp

theorem claim_C2_witness :
    (wIE1.initOk = true → 0 < wIE1.deviceCount →
      wEnvMemErr.memInfo 0 = .error "GPU is lost" →
      (getStatus wEnvMemErr (initGPUInfo wIE1)).1 =
        .error (.nvmlError "GPU is lost")) ∧
    ((∀ i < (initGPUInfo wIE1).cudaDevicesFound,
        ∃ m, wEnvMemErr.memInfo i = .ok m ∧ m.total ≠ 0) →
      ∃ st, (getStatus wEnvMemErr (initGPUInfo wIE1)).1 = .ok st) :=
  claim_C2_vram_asymmetry wIE1 wEnvMemErr "GPU is lost"

/-- Claim C6: with N devices found at enumeration, every Sample produced
by a tick that does not raise has exactly N per-GPU entries; and on fully
successful oracles the entries are, in order, the per-device results for
device 0, 1, ..., N-1 (enumeration order). -/
theorem claim_C6_sample_shape (ie : InitEnv) (es : List Env) :
    (∀ o ∈ (runTicks es (initGPUInfo ie)).1,
        o.1.gpus.length = (initGPUInfo ie).cudaDevicesFound) ∧
    (ie.initOk = true → 0 < ie.deviceCount →
      (∀ e ∈ es, FullyOk e ie.deviceCount) →
      ∀ (t : Nat) (o : Status × List (Metric × Nat)) (et : Env),
        (runTicks es (initGPUInfo ie)).1[t]? = some o → es[t]? = some et →
        o.1 = { device_type := "",
                gpus := (List.range ie.deviceCount).map (sampleOf et) }) := by
  constructor
  · intro o ho
    have hlen := runTicks_gpus_length es (initGPUInfo ie) o ho
    by_cases hc : ((initGPUInfo ie).pynvmlLoaded && (initGPUInfo ie).cuda) = true
    · rw [if_pos hc] at hlen
      exact hlen
    · rw [if_neg hc] at hlen
      rw [hlen]
      have hcf : ((initGPUInfo ie).pynvmlLoaded && (initGPUInfo ie).cuda) = false := by
        revert hc
        cases (initGPUInfo ie).pynvmlLoaded && (initGPUInfo ie).cuda <;> simp
      rw [initGPUInfo_count_zero ie hcf]
  · intro h1 h2 hFO t o et hidx het
    obtain ⟨hload, hcount, hg, hv, ht2⟩ := initGPUInfo_loaded ie h1 h2
    have hres := runTicks_fullOk es (initGPUInfo ie) hload hg hv ht2
      (fun i hi => initGPUInfo_flags ie h1 h2 i (by rw [hcount] at hi; exact hi))
      (fun e he => by rw [hcount]; exact hFO e he) t o et hidx het
    rw [hcount] at hres
    exact hres

theorem claim_C6_witness :
    (∀ o ∈ (runTicks [wEnvOk] (initGPUInfo wIE1)).1,
        o.1.gpus.length = (initGPUInfo wIE1).cudaDevicesFound) ∧
    (wIE1.initOk = true → 0 < wIE1.deviceCount →
      (∀ e ∈ [wEnvOk], FullyOk e wIE1.deviceCount) →
      ∀ (t : Nat) (o : Status × List (Metric × Nat)) (et : Env),
        (runTicks [wEnvOk] (initGPUInfo wIE1)).1[t]? = some o →
        [wEnvOk][t]? = some et →
        o.1 = { device_type := "",
                gpus := (List.range wIE1.deviceCount).map (sampleOf et) }) :=
  claim_C6_sample_shape wIE1 [wEnvOk]

/-- Claim C7: after k clean ticks the main block dumps to status.json
exactly the accumulated history: the in-memory history is the per-tick
records in tick order with no truncation or reordering, has length k, and
the dump call serializes it as a JSON array (one element per tick, in
order) with indent 4. -/
theorem claim_C7_history_flush (ie : InitEnv) (es : List Env)
    (h : (runTicks es (initGPUInfo ie)).2.2 = none) :
    (mainRun ie es).1 = (runTicks es (initGPUInfo ie)).1.map Prod.fst ∧
    (mainRun ie es).1.length = es.length ∧
    (mainRun ie es).2 =
      some { value := Json.arr ((mainRun ie es).1.map statusToJson),
             indent := 4 } := by
  unfold mainRun
  dsimp only
  rw [h]
  dsimp only
  refine ⟨rfl, ?_, rfl⟩
  rw [List.length_map]
  exact runTicks_length es (initGPUInfo ie) h

theorem claim_C7_witness :
    (mainRun wIE1 [wEnvOk]).1 =
      (runTicks [wEnvOk] (initGPUInfo wIE1)).1.map Prod.fst ∧
    (mainRun wIE1 [wEnvOk]).1.length = 1 ∧
    (mainRun wIE1 [wEnvOk]).2 =
      some { value := Json.arr ((mainRun wIE1 [wEnvOk]).1.map statusToJson),
             indent := 4 } :=
  claim_C7_history_flush wIE1 [wEnvOk] rfl

/-- Claim C3: for utilization and for temperature, once the metric query
was issued for some device on some tick and the library raised, every
later tick of the run shows the sentinel 0 in that metric field of every
per-GPU entry (in particular for that device) and the library is not
queried again for that metric on any device. -/
theorem claim_C3_metric_circuit_breaker (es : List Env) (s0 : GPUInfoState)
    (t t2 d : Nat) (msg : String) (ot ot2 : Status × List (Metric × Nat))
    (et : Env)
    (h1 : (runTicks es s0).1[t]? = some ot)
    (h2 : es[t]? = some et)
    (h5 : t < t2)
    (h6 : (runTicks es s0).1[t2]? = some ot2) :
    ((Metric.util, d) ∈ ot.2 → et.utilRates d = .error msg →
      (∀ g ∈ ot2.1.gpus, g.gpu_utilization = 0) ∧
      ∀ d2, (Metric.util, d2) ∉ ot2.2) ∧
    ((Metric.temp, d) ∈ ot.2 → et.temperature d = .error msg →
      (∀ g ∈ ot2.1.gpus, g.gpu_temperature = 0) ∧
      ∀ d2, (Metric.temp, d2) ∉ ot2.2) :=
  ⟨fun h3 h4 => runTicks_fail_util_trace es s0 t t2 d msg ot ot2 et h1 h2 h3 h4 h5 h6,
   fun h3 h4 => runTicks_fail_temp_trace es s0 t t2 d msg ot ot2 et h1 h2 h3 h4 h5 h6⟩

theorem claim_C3_witness :
    ((Metric.util, 0) ∈ wOT1.2 →
      wEnvFail0.utilRates 0 = .error "Unknown Error" →
      (∀ g ∈ wOT2.1.gpus, g.gpu_utilization = 0) ∧
      ∀ d2, (Metric.util, d2) ∉ wOT2.2) ∧
    ((Metric.temp, 0) ∈ wOT1.2 →
      wEnvFail0.temperature 0 = .error "Unknown Error" →
      (∀ g ∈ wOT2.1.gpus, g.gpu_temperature = 0) ∧
      ∀ d2, (Metric.temp, d2) ∉ wOT2.2) :=
  claim_C3_metric_circuit_breaker [wEnvFail0, wEnvOk] (initGPUInfo wIE1)
    0 1 0 "Unknown Error" wOT1 wOT2 wEnvFail0 rfl rfl (by decide) rfl

/-- Claim C1 is refuted by the code: the utilization disable switch is
the class-global switchGPU, so a failure for device 0 also blanks device
1. Here device 1 would answer 77 on tick 3, yet its recorded
gpu_utilization on tick 3 is 0, not 77. -/
theorem claim_C1_counterexample :
    wEnvFail0.utilRates 1 = .ok 77 ∧
    (runTicks [wEnvOk, wEnvOkB, wEnvFail0] (initGPUInfo wIE2)).1[2]?.map
      (fun o => o.1.gpus.map GpuSample.gpu_utilization) = some [0, 0] ∧
    (0 : Int) ≠ 77 :=
  ⟨rfl, rfl, by decide⟩

/-- Claim C1 (amended): metric disabling is global, not per device: with
2 devices and the utilization query throwing on tick 3 for device 0
only, ticks 1 and 2 show the real utilization for both devices, but from
tick 3 on every device (device 1 included) reports the sentinel 0 for
utilization, because the failure clears the class-global switchGPU. -/
theorem claim_C1_amended (ie : InitEnv) (e1 e2 e3 : Env) (rest : List Env)
    (msg : String) (a0 a1 b0 b1 : Int)
    (hinit : ie.initOk = true) (hcnt : ie.deviceCount = 2)
    (hF1 : FullyOk e1 2) (hF2 : FullyOk e2 2)
    (hU1a : e1.utilRates 0 = .ok a0) (hU1b : e1.utilRates 1 = .ok a1)
    (hU2a : e2.utilRates 0 = .ok b0) (hU2b : e2.utilRates 1 = .ok b1)
    (hFail : e3.utilRates 0 = .error msg) :
    ((runTicks (e1 :: e2 :: e3 :: rest) (initGPUInfo ie)).1[0]?.map
        (fun o => o.1.gpus.map GpuSample.gpu_utilization) = some [a0, a1]) ∧
    ((runTicks (e1 :: e2 :: e3 :: rest) (initGPUInfo ie)).1[1]?.map
        (fun o => o.1.gpus.map GpuSample.gpu_utilization) = some [b0, b1]) ∧
    ∀ (t : Nat) (o : Status × List (Metric × Nat)), 2 ≤ t →
      (runTicks (e1 :: e2 :: e3 :: rest) (initGPUInfo ie)).1[t]? = some o →
      ∀ g ∈ o.1.gpus, g.gpu_utilization = 0 := by
  have h2 : 0 < ie.deviceCount := by omega
  obtain ⟨hload, hcount, hg, hv, ht⟩ := initGPUInfo_loaded ie hinit h2
  rw [hcnt] at hcount
  have hflags : ∀ i < (initGPUInfo ie).cudaDevicesFound,
      (initGPUInfo ie).gpusUtilization[i]? = some true ∧
      (initGPUInfo ie).gpusVRAM[i]? = some true ∧
      (initGPUInfo ie).gpusTemperature[i]? = some true := by
    intro i hi
    rw [hcount] at hi
    exact initGPUInfo_flags ie hinit h2 i (by omega)
  obtain ⟨hv1, hs1⟩ := getStatus_fullOk e1 (initGPUInfo ie) hload hg hv ht hflags
    (by rw [hcount]; exact hF1)
  rcases hG1 : getStatus e1 (initGPUInfo ie) with ⟨r1, s1, q1⟩
  rw [hG1] at hv1 hs1
  dsimp only at hv1 hs1
  subst hs1
  cases r1 with
  | error e => exact absurd hv1 (by simp)
  | ok st1 =>
    cases hv1
    obtain ⟨hv2, hs2⟩ := getStatus_fullOk e2 (initGPUInfo ie) hload hg hv ht hflags
      (by rw [hcount]; exact hF2)
    rcases hG2 : getStatus e2 (initGPUInfo ie) with ⟨r2, s2, q2⟩
    rw [hG2] at hv2 hs2
    dsimp only at hv2 hs2
    subst hs2
    cases r2 with
    | error e => exact absurd hv2 (by simp)
    | ok st2 =>
      cases hv2
      have hrw1 := runTicks_cons_ok e1 (e2 :: e3 :: rest) (initGPUInfo ie) _
        (initGPUInfo ie) q1 hG1
      have hrw2 := runTicks_cons_ok e2 (e3 :: rest) (initGPUInfo ie) _
        (initGPUInfo ie) q2 hG2
      have hrange : List.range 2 = [0, 1] := rfl
      refine ⟨?_, ?_, ?_⟩
      · rw [hrw1]
        simp only [List.getElem?_cons_zero, Option.map_some']
        rw [hcount, hrange]
        simp [sampleOf_util e1 0 a0 hU1a, sampleOf_util e1 1 a1 hU1b]
      · rw [hrw1, hrw2]
        simp only [List.getElem?_cons_succ, List.getElem?_cons_zero,
          Option.map_some']
        rw [hcount, hrange]
        simp [sampleOf_util e2 0 b0 hU2a, sampleOf_util e2 1 b1 hU2b]
      · intro t o ht2 hidx
        obtain ⟨tp, rfl⟩ : ∃ tp, t = tp + 2 := ⟨t - 2, by omega⟩
        rw [hrw1, hrw2] at hidx
        simp only [List.getElem?_cons_succ] at hidx
        exact runTicks_failFirst_util e3 rest (initGPUInfo ie) msg hload
          (by rw [hcount]; omega) hg (hflags 0 (by rw [hcount]; omega)).1
          hFail tp o hidx

theorem claim_C1_witness :
    ((runTicks [wEnvOk, wEnvOkB, wEnvFail0] (initGPUInfo wIE2)).1[0]?.map
        (fun o => o.1.gpus.map GpuSample.gpu_utilization) = some [10, 11]) ∧
    ((runTicks [wEnvOk, wEnvOkB, wEnvFail0] (initGPUInfo wIE2)).1[1]?.map
        (fun o => o.1.gpus.map GpuSample.gpu_utilization) = some [20, 21]) ∧
    ∀ (t : Nat) (o : Status × List (Metric × Nat)), 2 ≤ t →
      (runTicks [wEnvOk, wEnvOkB, wEnvFail0] (initGPUInfo wIE2)).1[t]? = some o →
      ∀ g ∈ o.1.gpus, g.gpu_utilization = 0 :=
  claim_C1_amended wIE2 wEnvOk wEnvOkB wEnvFail0 [] "Unknown Error" 10 11 20 21
    rfl rfl
    (fun i hi => ⟨⟨10 + i, rfl⟩, ⟨wMem, rfl, by decide⟩, ⟨40, rfl⟩⟩)
    (fun i hi => ⟨⟨20 + i, rfl⟩, ⟨wMem, rfl, by decide⟩, ⟨40, rfl⟩⟩)
    rfl rfl rfl rfl rfl
